import Mathlib

/-!
Verification of the Somfy URTSii shade-control core (`somfy-urts-poly.py`).

Shallow embedding: the `SomfyShade` node becomes a state record `ShadeState`
over exact rationals (Python floats are modelled as `ℚ`, Python epoch times as
`ℚ` parameters `now`), the one-shot `threading.Timer` becomes an
`Option (duration × action)` field, and each serial write attempted through
`Controller.command` is recorded in an output list of command characters.
Python `int()` (truncation toward zero) is `pyInt`.  The serial transport's
retry loop (`Controller._sendURTSCmd`) is embedded with an oracle giving the
outcome of each connect / write attempt.
-/

namespace Somfy

/-- Truncation toward zero, the behaviour of Python `int()` on a float. -/
def pyInt (q : ℚ) : Int := if 0 ≤ q then ⌊q⌋ else -⌊-q⌋

/-- The action a pending `threading.Timer` will run at expiry
(`SomfyShade._command`, lines 290-299): `_stop`, `setShadePosition(nextCmd)`,
or `_updatePosition`. -/
inductive TimerAction where
  | stopAct
  | setPos (t : Int)
  | updatePos
  deriving DecidableEq, Repr

/-- The `nextCmd` argument of `SomfyShade._command`: the default `""`,
the string `"S"`, or a numeric target position. -/
inductive NextCmd where
  | noneCmd
  | stopCmd
  | posCmd (t : Int)
  deriving DecidableEq, Repr

/-- Mutable state of one `SomfyShade` node (`__init__` lines 208-214, plus the
travel time set in `start`).  `driverST` / `driverGV1` are the externally
reported position and travel-time calibration (`setDriver` calls). -/
structure ShadeState where
  position : Int
  travelTime : ℚ
  lastCmdTime : ℚ
  lastCmd : String
  timer : Option (ℚ × TimerAction)
  driverST : Int
  driverGV1 : ℚ
  deriving DecidableEq, Repr

/-- Result of a shade operation: the new state, the motor command characters
written to the serial link (in order), and the boolean the method returns. -/
structure ShadeOut where
  state : ShadeState
  sent : List String
  ok : Bool
  deriving DecidableEq, Repr

/-- State right after `SomfyShade.__init__` and `start` with the default
8-second travel time (lines 208-214, 231-232). -/
def initShade : ShadeState :=
  { position := -1, travelTime := 8, lastCmdTime := 0, lastCmd := "",
    timer := none, driverST := 0, driverGV1 := 8 }

/-- `SomfyShade._updatePosition` (lines 343-367).  Cancels the pending timer,
computes the elapsed time since the last motor command clamped at 0, snaps the
position to the boundary of `lastCmd` if the full travel time elapsed,
otherwise (when some time elapsed and the position is known) moves the
position by `elapsed / travelTime * 100` in the direction of `lastCmd`,
clamped to [0,100] and truncated by `int()`.  Reports the position if known,
then resets `lastCmdTime` to now and clears `lastCmd`.  The Python function
always returns `True`; the embedding is a total function on states.
`newPosition` is the position mutation (lines 350-362); `updatePosition`
combines it with the timer cancel, the `ST` driver report and the
`lastCmdTime` / `lastCmd` reset (lines 343-367). -/
def newPosition (now : ℚ) (s : ShadeState) : Int :=
  let timeDifference : ℚ := max (now - s.lastCmdTime) 0
  if s.travelTime ≤ timeDifference then
    if s.lastCmd = "U" then 100
    else if s.lastCmd = "D" then 0
    else s.position
  else if 0 < timeDifference ∧ 0 ≤ s.position then
    let travel : ℚ := timeDifference / s.travelTime * 100
    if s.lastCmd = "U" then pyInt (max (min ((s.position : ℚ) + travel) 100) 0)
    else if s.lastCmd = "D" then pyInt (max (min ((s.position : ℚ) - travel) 100) 0)
    else s.position
  else s.position

def updatePosition (now : ℚ) (s : ShadeState) : ShadeState :=
  let p : Int := newPosition now s
  { s with position := p,
           driverST := if 0 ≤ p then p else s.driverST,
           timer := none, lastCmdTime := now, lastCmd := "" }

/-- `SomfyShade._travelTimeReqd` (lines 329-341): full travel time when the
position is unknown, otherwise `abs(travelTime * (target - position) / 100)`.
(The `except` branch is unreachable: the arithmetic cannot raise.) -/
def travelTimeReqd (s : ShadeState) (positionSP : Int) : ℚ :=
  if s.position = -1 then s.travelTime
  else |s.travelTime * ((positionSP : ℚ) - (s.position : ℚ)) / 100|

/-- `SomfyShade._command` (lines 283-304): sends the single command character
to the serial port (recorded in `sent`; its transport result is ignored),
records `lastCmd` / `lastCmdTime`, cancels any pending timer and arms a fresh
one for `timeSP` seconds whose expiry action is chosen from `nextCmd`
(`"S"` → `_stop`, numeric → `setShadePosition(nextCmd)`, else
`_updatePosition`).  Returns `True` (timer creation does not fail).
`nextAction` is the timer-action dispatch of lines 293-298. -/
def nextAction : NextCmd → TimerAction
  | .stopCmd => .stopAct
  | .posCmd t => .setPos t
  | .noneCmd => .updatePos

def commandShade (now timeSP : ℚ) (c : String) (nextCmd : NextCmd)
    (s : ShadeState) : ShadeOut :=
  let c1 : String := c.take 1
  ⟨{ s with lastCmdTime := now, lastCmd := c1,
            timer := some (timeSP, nextAction nextCmd) }, [c1], true⟩

/-- `SomfyShade.setShadePosition` (lines 313-327): finalize the in-flight move
first, then dispatch on the target: ≤ 0 → Down, ≥ 100 → Up (both with no
follow-up beyond `_updatePosition`), unknown position → Down for the full
travel time with a staged `setShadePosition(target)` follow-up, otherwise
Up/Down toward the target with a Stop follow-up. -/
def setShadePosition (now : ℚ) (positionSP : Int) (s : ShadeState) : ShadeOut :=
  let s0 : ShadeState := updatePosition now s
  if positionSP ≤ 0 then
    commandShade now (travelTimeReqd s0 positionSP) "D" .noneCmd s0
  else if 100 ≤ positionSP then
    commandShade now (travelTimeReqd s0 positionSP) "U" .noneCmd s0
  else if s0.position = -1 then
    commandShade now (travelTimeReqd s0 positionSP) "D" (.posCmd positionSP) s0
  else if s0.position < positionSP then
    commandShade now (travelTimeReqd s0 positionSP) "U" .stopCmd s0
  else
    commandShade now (travelTimeReqd s0 positionSP) "D" .stopCmd s0

/-- `SomfyShade._stop` / `stop` (lines 269-281): send `"S"`, finalize the
position estimate, return the transport's success. -/
def stopShade (now : ℚ) (sendOk : Bool) (s : ShadeState) : ShadeOut :=
  ⟨updatePosition now s, ["S"], sendOk⟩

/-- `SomfyShade.up5` (BRT, lines 243-249): rejected with no serial command
when the position is unknown, otherwise `setShadePosition(position + 5)`. -/
def up5 (now : ℚ) (s : ShadeState) : ShadeOut :=
  if s.position = -1 then ⟨s, [], false⟩
  else setShadePosition now (s.position + 5) s

/-- `SomfyShade.down5` (DIM, lines 251-257): rejected with no serial command
when the position is unknown, otherwise `setShadePosition(position - 5)`. -/
def down5 (now : ℚ) (s : ShadeState) : ShadeOut :=
  if s.position = -1 then ⟨s, [], false⟩
  else setShadePosition now (s.position - 5) s

/-- `SomfyShade.up` (DON, lines 259-267): with no value, `setShadePosition 100`;
with a value, `int(value)` is passed to `setShadePosition` with no range
validation. -/
def upCmd (now : ℚ) (value : Option Int) (s : ShadeState) : ShadeOut :=
  match value with
  | none => setShadePosition now 100 s
  | some v => setShadePosition now v s

/-- `SomfyShade.down` (DOF, lines 239-241): `setShadePosition 0`. -/
def downCmd (now : ℚ) (s : ShadeState) : ShadeOut :=
  setShadePosition now 0 s

/-- `SomfyShade.setTravelTime` (lines 369-384): `none` models a value on which
`float()` raises (missing or non-numeric); values outside [0,60] are rejected
with no state change; otherwise `travelTime` and the reported calibration
driver are updated. -/
def setTravelTime (value : Option ℚ) (s : ShadeState) : ShadeOut :=
  match value with
  | none => ⟨s, [], false⟩
  | some t =>
    if t < 0 ∨ 60 < t then ⟨s, [], false⟩
    else ⟨{ s with travelTime := t, driverGV1 := t }, [], true⟩

/-- `SomfyShade.query` (lines 234-237): reports the position if known and the
travel time; no other state change. -/
def queryShade (s : ShadeState) : ShadeOut :=
  let s1 : ShadeState :=
    if 0 ≤ s.position then { s with driverST := s.position } else s
  ⟨{ s1 with driverGV1 := s1.travelTime }, [], true⟩

/-- One public operation on a shade, with the wall-clock time at which it runs
(and, for `stop`, the transport's send result). -/
inductive ShadeOp where
  | setPosOp (now : ℚ) (t : Int)
  | stopOp (now : ℚ) (sendOk : Bool)
  | up5Op (now : ℚ)
  | down5Op (now : ℚ)
  | upOp (now : ℚ) (v : Option Int)
  | downOp (now : ℚ)
  | setTTOp (v : Option ℚ)
  | queryOp
  | finalizeOp (now : ℚ)
  deriving Repr

/-- State transition of one public operation. -/
def runOp (op : ShadeOp) (s : ShadeState) : ShadeState :=
  match op with
  | .setPosOp now t => (setShadePosition now t s).state
  | .stopOp now sendOk => (stopShade now sendOk s).state
  | .up5Op now => (up5 now s).state
  | .down5Op now => (down5 now s).state
  | .upOp now v => (upCmd now v s).state
  | .downOp now => (downCmd now s).state
  | .setTTOp v => (setTravelTime v s).state
  | .queryOp => (queryShade s).state
  | .finalizeOp now => updatePosition now s

/-- Run a sequence of public operations. -/
def runOps (l : List ShadeOp) (s : ShadeState) : ShadeState :=
  l.foldl (fun s op => runOp op s) s

/-- The position invariant: the estimate is the UNKNOWN sentinel `-1` or an
integer in [0,100]. -/
def PosInv (s : ShadeState) : Prop :=
  s.position = -1 ∨ (0 ≤ s.position ∧ s.position ≤ 100)

instance (s : ShadeState) : Decidable (PosInv s) := by
  unfold PosInv
  infer_instance

/-! ### Serial transport (`Controller`) -/

/-- Outcome oracle for the serial link: whether the `connectSerial` call made
with `_tries = i`, and the `write` attempted right after it, succeed. -/
structure SerialEnv where
  connectOk : ℕ → Bool
  writeOk : ℕ → Bool

/-- Observable controller state: the `GV1` "serial port connected" driver. -/
structure CtrlState where
  serialConnected : Bool
  deriving DecidableEq, Repr

/-- `Controller.disconnectSerial` (lines 125-141): reports the link down and
closes the handle.  (Its boolean result is ignored by `_sendURTSCmd`.) -/
def disconnectSerial (st : CtrlState) : CtrlState :=
  { st with serialConnected := false }

/-- One `connectSerial` call (lines 94-123) inside the send loop, with its
outcome given by the oracle at the current `_tries` value: on success the link
is reported up; on failure `connectSerial` itself ends in `disconnectSerial`,
reporting the link down. -/
def connectSerialStep (env : SerialEnv) (tries : ℕ) (st : CtrlState) :
    CtrlState × Bool :=
  if env.connectOk tries then ({ st with serialConnected := true }, true)
  else (disconnectSerial st, false)

/-- The `while _tries <= 2` loop of `Controller._sendURTSCmd` (lines 146-159).
`remaining` counts the loop iterations still allowed (`3 - _tries`); each
failed connect or failed write increments `_tries`; a completed write returns
`True` at once; exhausting the attempts forces a disconnect and returns
`False`. -/
def sendLoop (env : SerialEnv) : ℕ → ℕ → CtrlState → CtrlState × Bool
  | _, 0, st => (disconnectSerial st, false)
  | tries, remaining + 1, st =>
    let p := connectSerialStep env tries st
    if p.2 then
      if env.writeOk tries then (p.1, true)
      else sendLoop env (tries + 1) remaining p.1
    else sendLoop env (tries + 1) remaining p.1

/-- `Controller._sendURTSCmd` (lines 143-159): empty commands are rejected;
otherwise the connect+write loop runs with `_tries` from 0 while
`_tries <= 2`. -/
def sendURTSCmd (env : SerialEnv) (st : CtrlState) (command : String) :
    CtrlState × Bool :=
  if command = "" then (st, false) else sendLoop env 0 3 st

/-! ### Concrete states used to instantiate the theorems -/

/-- An idle shade with a known position `p` and travel time `tt`. -/
def shadeAt (p : Int) (tt : ℚ) : ShadeState :=
  { position := p, travelTime := tt, lastCmdTime := 0, lastCmd := "",
    timer := none, driverST := 0, driverGV1 := tt }

/-- A shade in mid-move: position estimate `p`, travel time `tt`, last motor
command `cmd` issued at time `lct`. -/
def shadeMoving (p : Int) (tt lct : ℚ) (cmd : String) : ShadeState :=
  { position := p, travelTime := tt, lastCmdTime := lct, lastCmd := cmd,
    timer := none, driverST := 0, driverGV1 := tt }

/-! ### Helper lemmas -/

theorem pyInt_of_nonneg {q : ℚ} (h : 0 ≤ q) : pyInt q = ⌊q⌋ := by
  simp [pyInt, h]

theorem pyInt_clamp_mem (x : ℚ) :
    0 ≤ pyInt (max (min x 100) 0) ∧ pyInt (max (min x 100) 0) ≤ 100 := by
  have h0 : (0 : ℚ) ≤ max (min x 100) 0 := le_max_right _ _
  have h1 : max (min x 100) 0 ≤ 100 := max_le (min_le_right _ _) (by norm_num)
  rw [pyInt_of_nonneg h0]
  constructor
  · exact Int.floor_nonneg.mpr h0
  · have := Int.floor_le_floor h1
    simpa using this

theorem updatePosition_travelTime (now : ℚ) (s : ShadeState) :
    (updatePosition now s).travelTime = s.travelTime := rfl

theorem updatePosition_lastCmd (now : ℚ) (s : ShadeState) :
    (updatePosition now s).lastCmd = "" := rfl

theorem updatePosition_lastCmdTime (now : ℚ) (s : ShadeState) :
    (updatePosition now s).lastCmdTime = now := rfl

theorem updatePosition_timer (now : ℚ) (s : ShadeState) :
    (updatePosition now s).timer = none := rfl

theorem updatePosition_position (now : ℚ) (s : ShadeState) :
    (updatePosition now s).position = newPosition now s := rfl

theorem newPosition_idle (now : ℚ) (s : ShadeState)
    (h : s.lastCmd = "") : newPosition now s = s.position := by
  simp [newPosition, h]

theorem updatePosition_position_idle (now : ℚ) (s : ShadeState)
    (h : s.lastCmd = "") : (updatePosition now s).position = s.position :=
  newPosition_idle now s h

theorem newPosition_posInv (now : ℚ) (s : ShadeState)
    (h : s.position = -1 ∨ (0 ≤ s.position ∧ s.position ≤ 100)) :
    newPosition now s = -1 ∨ (0 ≤ newPosition now s ∧ newPosition now s ≤ 100) := by
  simp only [newPosition]
  by_cases h1 : s.travelTime ≤ max (now - s.lastCmdTime) 0
  · rw [if_pos h1]
    by_cases h2 : s.lastCmd = "U"
    · rw [if_pos h2]; right; norm_num
    · rw [if_neg h2]
      by_cases h3 : s.lastCmd = "D"
      · rw [if_pos h3]; right; norm_num
      · rw [if_neg h3]; exact h
  · rw [if_neg h1]
    by_cases h2 : 0 < max (now - s.lastCmdTime) 0 ∧ 0 ≤ s.position
    · rw [if_pos h2]
      by_cases h3 : s.lastCmd = "U"
      · rw [if_pos h3]; right; exact pyInt_clamp_mem _
      · rw [if_neg h3]
        by_cases h4 : s.lastCmd = "D"
        · rw [if_pos h4]; right; exact pyInt_clamp_mem _
        · rw [if_neg h4]; exact h
    · rw [if_neg h2]; exact h

theorem updatePosition_posInv (now : ℚ) (s : ShadeState) (h : PosInv s) :
    PosInv (updatePosition now s) :=
  newPosition_posInv now s h

theorem commandShade_state_position (now timeSP : ℚ) (c : String)
    (nextCmd : NextCmd) (s : ShadeState) :
    (commandShade now timeSP c nextCmd s).state.position = s.position := rfl

theorem commandShade_state_travelTime (now timeSP : ℚ) (c : String)
    (nextCmd : NextCmd) (s : ShadeState) :
    (commandShade now timeSP c nextCmd s).state.travelTime = s.travelTime := rfl

theorem commandShade_state_lastCmd (now timeSP : ℚ) (c : String)
    (nextCmd : NextCmd) (s : ShadeState) :
    (commandShade now timeSP c nextCmd s).state.lastCmd = c.take 1 := rfl

theorem commandShade_state_lastCmdTime (now timeSP : ℚ) (c : String)
    (nextCmd : NextCmd) (s : ShadeState) :
    (commandShade now timeSP c nextCmd s).state.lastCmdTime = now := rfl

theorem commandShade_state_timer (now timeSP : ℚ) (c : String)
    (nextCmd : NextCmd) (s : ShadeState) :
    (commandShade now timeSP c nextCmd s).state.timer =
      some (timeSP, nextAction nextCmd) := rfl

theorem commandShade_sent (now timeSP : ℚ) (c : String)
    (nextCmd : NextCmd) (s : ShadeState) :
    (commandShade now timeSP c nextCmd s).sent = [c.take 1] := rfl

theorem take_one_U : ("U" : String).take 1 = "U" := rfl

theorem take_one_D : ("D" : String).take 1 = "D" := rfl

theorem setShadePosition_low (now : ℚ) (t : Int) (s : ShadeState) (h : t ≤ 0) :
    setShadePosition now t s =
      commandShade now (travelTimeReqd (updatePosition now s) t) "D" .noneCmd
        (updatePosition now s) := by
  simp only [setShadePosition]
  rw [if_pos h]

theorem setShadePosition_high (now : ℚ) (t : Int) (s : ShadeState)
    (h1 : ¬ t ≤ 0) (h2 : 100 ≤ t) :
    setShadePosition now t s =
      commandShade now (travelTimeReqd (updatePosition now s) t) "U" .noneCmd
        (updatePosition now s) := by
  simp only [setShadePosition]
  rw [if_neg h1, if_pos h2]

theorem setShadePosition_unknown (now : ℚ) (t : Int) (s : ShadeState)
    (h1 : ¬ t ≤ 0) (h2 : ¬ 100 ≤ t) (h3 : (updatePosition now s).position = -1) :
    setShadePosition now t s =
      commandShade now (travelTimeReqd (updatePosition now s) t) "D" (.posCmd t)
        (updatePosition now s) := by
  simp only [setShadePosition]
  rw [if_neg h1, if_neg h2, if_pos h3]

theorem setShadePosition_known (now : ℚ) (t : Int) (s : ShadeState)
    (h1 : ¬ t ≤ 0) (h2 : ¬ 100 ≤ t) (h3 : ¬ (updatePosition now s).position = -1) :
    setShadePosition now t s =
      (if (updatePosition now s).position < t then
        commandShade now (travelTimeReqd (updatePosition now s) t) "U" .stopCmd
          (updatePosition now s)
      else
        commandShade now (travelTimeReqd (updatePosition now s) t) "D" .stopCmd
          (updatePosition now s)) := by
  simp only [setShadePosition]
  rw [if_neg h1, if_neg h2, if_neg h3]

theorem setShadePosition_state_position (now : ℚ) (t : Int) (s : ShadeState) :
    (setShadePosition now t s).state.position = (updatePosition now s).position := by
  simp only [setShadePosition]
  split_ifs <;> rfl

theorem setShadePosition_ok (now : ℚ) (t : Int) (s : ShadeState) :
    (setShadePosition now t s).ok = true := by
  simp only [setShadePosition]
  split_ifs <;> rfl

theorem travelTimeReqd_known (s : ShadeState) (t : Int)
    (h : ¬ s.position = -1) (hT : 0 ≤ s.travelTime) :
    travelTimeReqd s t = s.travelTime * |(t : ℚ) - (s.position : ℚ)| / 100 := by
  simp only [travelTimeReqd]
  rw [if_neg h, abs_div, abs_mul, abs_of_nonneg hT]
  norm_num

/-! ### Claims -/

/-- C1: for a shade whose estimated position `p` is known (`0 ≤ p ≤ 100`, and
idle, so that the in-flight finalization at the head of `setShadePosition`
leaves `p` unchanged) and a target `t` with `0 < t < 100`, `t ≠ p`,
`setShadePosition t` sends Up if `t > p` and Down if `t < p`, arms the timer
for `travelTime * |t - p| / 100` seconds with the Stop action at expiry, and
reports success. -/
theorem setPosition_known_interior (s : ShadeState) (now : ℚ) (t : Int)
    (hidle : s.lastCmd = "") (hT : 0 ≤ s.travelTime)
    (hp0 : 0 ≤ s.position) (hp1 : s.position ≤ 100)
    (ht0 : 0 < t) (ht1 : t < 100) (_hne : t ≠ s.position) :
    (setShadePosition now t s).sent = [if s.position < t then "U" else "D"] ∧
    (setShadePosition now t s).state.timer =
      some (s.travelTime * |(t : ℚ) - (s.position : ℚ)| / 100,
        TimerAction.stopAct) ∧
    (setShadePosition now t s).ok = true := by
  have hpos : (updatePosition now s).position = s.position :=
    updatePosition_position_idle now s hidle
  have hTT : (updatePosition now s).travelTime = s.travelTime :=
    updatePosition_travelTime now s
  have h1 : ¬ t ≤ 0 := by omega
  have h2 : ¬ 100 ≤ t := by omega
  have h3 : ¬ (updatePosition now s).position = -1 := by omega
  have hreq : travelTimeReqd (updatePosition now s) t =
      s.travelTime * |(t : ℚ) - (s.position : ℚ)| / 100 := by
    rw [travelTimeReqd_known _ _ h3 (hTT ▸ hT), hTT, hpos]
  rw [setShadePosition_known now t s h1 h2 h3]
  by_cases hlt : (updatePosition now s).position < t
  · rw [if_pos hlt, if_pos (hpos ▸ hlt)]
    exact ⟨rfl, by simp only [commandShade_state_timer, nextAction, hreq], rfl⟩
  · rw [if_neg hlt, if_neg (hpos ▸ hlt)]
    exact ⟨rfl, by simp only [commandShade_state_timer, nextAction, hreq], rfl⟩

/-- C1 witness (Scenario 2 of the spec): shade at 30, travel time 10s,
`setShadePosition 80` sends Up and arms a 5-second Stop timer. -/
theorem setPosition_known_interior_witness :
    (setShadePosition 100 80 (shadeAt 30 10)).sent = ["U"] ∧
    (setShadePosition 100 80 (shadeAt 30 10)).state.timer =
      some (5, TimerAction.stopAct) ∧
    (setShadePosition 100 80 (shadeAt 30 10)).ok = true := by
  have h := setPosition_known_interior (shadeAt 30 10) 100 80 rfl
    (by norm_num [shadeAt]) (by norm_num [shadeAt]) (by norm_num [shadeAt])
    (by norm_num) (by norm_num) (by norm_num [shadeAt])
  refine ⟨?_, ?_, h.2.2⟩
  · rw [h.1]; norm_num [shadeAt]
  · rw [h.2.1]; norm_num [shadeAt]

/-- C2 counterexample: with a known position 50 and travel time 8s, the code
computes the run duration toward boundary target 0 as
`abs(8 * (0 - 50) / 100) = 4`, not the full travel time 8: `_travelTimeReqd`
returns the full travel time only when the position is UNKNOWN; there is no
special case for boundary targets. -/
theorem boundary_move_not_full_time :
    travelTimeReqd (shadeAt 50 8) 0 ≠ (shadeAt 50 8).travelTime := by
  norm_num [travelTimeReqd, shadeAt]

/-- C2 amended: `requiredSeconds` is the full travel time exactly when the
estimated position is UNKNOWN (-1); when the position is known it is
`abs(travelTime * (t - p)) / 100` for every target `t`, including the
boundary targets 0 and 100 — a boundary move from a known position runs the
timer only for the interpolated duration, not the full travel time. -/
theorem travelTimeReqd_cases (s : ShadeState) (t : Int) :
    (s.position = -1 → travelTimeReqd s t = s.travelTime) ∧
    (s.position ≠ -1 →
      travelTimeReqd s t = |s.travelTime * ((t : ℚ) - (s.position : ℚ))| / 100) := by
  constructor
  · intro h; simp [travelTimeReqd, h]
  · intro h
    simp only [travelTimeReqd]
    rw [if_neg h, abs_div]
    norm_num

/-- C2 amended witness: from UNKNOWN the required time is the full 8s; from
position 50 the required time toward 0 is 4s. -/
theorem travelTimeReqd_cases_witness :
    travelTimeReqd initShade 0 = initShade.travelTime ∧
    travelTimeReqd (shadeAt 50 8) 0 = 4 := by
  constructor
  · exact (travelTimeReqd_cases initShade 0).1 rfl
  · have h := (travelTimeReqd_cases (shadeAt 50 8) 0).2 (by norm_num [shadeAt])
    rw [h]; norm_num [shadeAt]

/-- C3: from an idle shade with UNKNOWN position and an interior target
`0 < t < 100`, `setShadePosition t` sends Down, arms the timer for the full
travel time with the staged `setShadePosition t` follow-up action, and when
that follow-up runs at expiry its own finalization puts the position at 0, so
the second stage starts from a known position of 0 and (for `t > 0`) sends
Up. -/
theorem setPosition_unknown_two_stage (s : ShadeState) (now : ℚ) (t : Int)
    (hidle : s.lastCmd = "") (hunk : s.position = -1)
    (ht0 : 0 < t) (ht1 : t < 100) :
    (setShadePosition now t s).sent = ["D"] ∧
    (setShadePosition now t s).state.timer =
      some (s.travelTime, TimerAction.setPos t) ∧
    (updatePosition (now + s.travelTime) (setShadePosition now t s).state).position
      = 0 ∧
    (setShadePosition (now + s.travelTime) t (setShadePosition now t s).state).sent
      = ["U"] := by
  have hpos : (updatePosition now s).position = s.position :=
    updatePosition_position_idle now s hidle
  have hTT : (updatePosition now s).travelTime = s.travelTime :=
    updatePosition_travelTime now s
  have h1 : ¬ t ≤ 0 := by omega
  have h2 : ¬ 100 ≤ t := by omega
  have h3 : (updatePosition now s).position = -1 := by rw [hpos, hunk]
  have hreq : travelTimeReqd (updatePosition now s) t = s.travelTime := by
    simp [travelTimeReqd, h3, hTT]
  have hdisp := setShadePosition_unknown now t s h1 h2 h3
  have hcmd : (setShadePosition now t s).state.lastCmd = "D" := by
    rw [hdisp, commandShade_state_lastCmd, take_one_D]
  have hlct : (setShadePosition now t s).state.lastCmdTime = now := by
    rw [hdisp, commandShade_state_lastCmdTime]
  have htt1 : (setShadePosition now t s).state.travelTime = s.travelTime := by
    rw [hdisp, commandShade_state_travelTime, hTT]
  have hsnap : (updatePosition (now + s.travelTime)
      (setShadePosition now t s).state).position = 0 := by
    rw [updatePosition_position]
    simp only [newPosition, hcmd, hlct, htt1]
    rw [if_pos]
    · simp
    · have hle : s.travelTime ≤ max s.travelTime 0 := le_max_left _ _
      calc s.travelTime ≤ max s.travelTime 0 := hle
        _ = max (now + s.travelTime - now) 0 := by rw [add_sub_cancel_left]
  refine ⟨?_, ?_, hsnap, ?_⟩
  · rw [hdisp, commandShade_sent, take_one_D]
  · rw [hdisp, commandShade_state_timer, hreq]; rfl
  · have h3' : ¬ (updatePosition (now + s.travelTime)
        (setShadePosition now t s).state).position = -1 := by
      rw [hsnap]; norm_num
    have hdisp2 := setShadePosition_known (now + s.travelTime) t
      (setShadePosition now t s).state h1 h2 h3'
    rw [hdisp2, if_pos (by rw [hsnap]; exact ht0), commandShade_sent, take_one_U]

/-- C3 witness (Scenario 1 of the spec): UNKNOWN shade, travel time 8s:
`setShadePosition 50` at time 0 sends Down with an 8s staged follow-up; at
expiry (time 8) the position finalizes to 0 and the re-issued
`setShadePosition 50` sends Up. -/
theorem setPosition_unknown_two_stage_witness :
    (setShadePosition 0 50 initShade).sent = ["D"] ∧
    (setShadePosition 0 50 initShade).state.timer =
      some (8, TimerAction.setPos 50) ∧
    (updatePosition 8 (setShadePosition 0 50 initShade).state).position = 0 ∧
    (setShadePosition 8 50 (setShadePosition 0 50 initShade).state).sent = ["U"] := by
  have h := setPosition_unknown_two_stage initShade 0 50 rfl rfl
    (by norm_num) (by norm_num)
  refine ⟨h.1, ?_, ?_, ?_⟩
  · rw [h.2.1]; norm_num [initShade]
  · have := h.2.2.1; rw [show (0 : ℚ) + initShade.travelTime = 8 from by
      norm_num [initShade]] at this
    exact this
  · have := h.2.2.2; rw [show (0 : ℚ) + initShade.travelTime = 8 from by
      norm_num [initShade]] at this
    exact this

/-- C4: position finalization computes `elapsed = max (now - lastCmdTime) 0`;
if the full travel time has elapsed the position snaps to 100 (last command
Up) or 0 (last command Down) with no hypothesis on the prior position (so
also from UNKNOWN); otherwise, if some time elapsed and the position is
known, the position becomes the prior position moved by
`elapsed / travelTime * 100` in the direction of the last command, clamped to
[0,100] and truncated to an integer.  The embedding is a total function (the
Python function always returns `True`). -/
theorem updatePosition_cases (s : ShadeState) (now : ℚ) :
    (s.travelTime ≤ max (now - s.lastCmdTime) 0 → s.lastCmd = "U" →
      (updatePosition now s).position = 100) ∧
    (s.travelTime ≤ max (now - s.lastCmdTime) 0 → s.lastCmd = "D" →
      (updatePosition now s).position = 0) ∧
    (max (now - s.lastCmdTime) 0 < s.travelTime →
      0 < max (now - s.lastCmdTime) 0 → 0 ≤ s.position → s.lastCmd = "U" →
      (updatePosition now s).position =
        pyInt (max (min ((s.position : ℚ) +
          max (now - s.lastCmdTime) 0 / s.travelTime * 100) 100) 0)) ∧
    (max (now - s.lastCmdTime) 0 < s.travelTime →
      0 < max (now - s.lastCmdTime) 0 → 0 ≤ s.position → s.lastCmd = "D" →
      (updatePosition now s).position =
        pyInt (max (min ((s.position : ℚ) -
          max (now - s.lastCmdTime) 0 / s.travelTime * 100) 100) 0)) := by
  refine ⟨?_, ?_, ?_, ?_⟩ <;> intros h1 h2 <;>
    rw [updatePosition_position] <;> simp only [newPosition]
  · rw [if_pos h1, if_pos h2]
  · rw [if_pos h1, if_neg (by rw [h2]; decide), if_pos h2]
  · intro h3 h4
    rw [if_neg (not_le.mpr h1), if_pos ⟨h2, h3⟩, if_pos h4]
  · intro h3 h4
    rw [if_neg (not_le.mpr h1), if_pos ⟨h2, h3⟩,
      if_neg (by rw [h4]; decide), if_pos h4]

/-- C4 witness: a shade at 50 with travel time 8s last commanded Up at time 0:
finalizing at time 10 (overshoot) snaps to 100; finalizing at time 3 moves to
`int(min(50 + 3/8*100, 100)) = 87`; the Down analogues from 50 give 0 and 12. -/
theorem updatePosition_cases_witness :
    (updatePosition 10 (shadeMoving 50 8 0 "U")).position = 100 ∧
    (updatePosition 3 (shadeMoving 50 8 0 "U")).position = 87 ∧
    (updatePosition 10 (shadeMoving 50 8 0 "D")).position = 0 ∧
    (updatePosition 3 (shadeMoving 50 8 0 "D")).position = 12 := by
  refine ⟨?_, ?_, ?_, ?_⟩
  · exact (updatePosition_cases (shadeMoving 50 8 0 "U") 10).1
      (by norm_num [shadeMoving]) rfl
  · have h := (updatePosition_cases (shadeMoving 50 8 0 "U") 3).2.2.1
      (by norm_num [shadeMoving]) (by norm_num [shadeMoving])
      (by norm_num [shadeMoving]) rfl
    rw [h]
    norm_num [shadeMoving, pyInt]
  · exact (updatePosition_cases (shadeMoving 50 8 0 "D") 10).2.1
      (by norm_num [shadeMoving]) rfl
  · have h := (updatePosition_cases (shadeMoving 50 8 0 "D") 3).2.2.2
      (by norm_num [shadeMoving]) (by norm_num [shadeMoving])
      (by norm_num [shadeMoving]) rfl
    rw [h]
    norm_num [shadeMoving, pyInt]

/-- C5: finalization is idempotent.  One call clears `lastCmd` and resets
`lastCmdTime` to now; a second call at any later (or equal) time then leaves
the estimated position unchanged, so elapsed time is never double-counted. -/
theorem updatePosition_idem (s : ShadeState) (n1 n2 : ℚ) :
    (updatePosition n1 s).lastCmd = "" ∧
    (updatePosition n1 s).lastCmdTime = n1 ∧
    (updatePosition n2 (updatePosition n1 s)).position =
      (updatePosition n1 s).position :=
  ⟨updatePosition_lastCmd n1 s, updatePosition_lastCmdTime n1 s,
    updatePosition_position_idle n2 (updatePosition n1 s)
      (updatePosition_lastCmd n1 s)⟩

theorem runOp_posInv (op : ShadeOp) (s : ShadeState) (h : PosInv s) :
    PosInv (runOp op s) := by
  have hset : ∀ (now : ℚ) (t : Int), PosInv (setShadePosition now t s).state := by
    intro now t
    have := setShadePosition_state_position now t s
    unfold PosInv
    rw [this]
    exact updatePosition_posInv now s h
  cases op with
  | setPosOp now t => exact hset now t
  | stopOp now sendOk => exact updatePosition_posInv now s h
  | up5Op now =>
    by_cases hu : s.position = -1
    · simp only [runOp, up5, if_pos hu]; exact h
    · simp only [runOp, up5, if_neg hu]; exact hset now _
  | down5Op now =>
    by_cases hu : s.position = -1
    · simp only [runOp, down5, if_pos hu]; exact h
    · simp only [runOp, down5, if_neg hu]; exact hset now _
  | upOp now v =>
    cases v with
    | none => exact hset now 100
    | some v => exact hset now v
  | downOp now => exact hset now 0
  | setTTOp v =>
    cases v with
    | none => exact h
    | some t =>
      simp only [runOp, setTravelTime]
      split_ifs <;> exact h
  | queryOp =>
    simp only [runOp, queryShade, PosInv]
    split_ifs <;> exact h
  | finalizeOp now => exact updatePosition_posInv now s h

/-- C6: over every sequence of public operations, the estimated position is
always the UNKNOWN sentinel -1 or an integer in [0,100]; in particular each
finalization (a `finalizeOp` step) lands in [0,100] when it moves the
position, regardless of elapsed-time overshoot, thanks to the clamp. -/
theorem position_invariant (l : List ShadeOp) (s : ShadeState) (h : PosInv s) :
    PosInv (runOps l s) := by
  induction l generalizing s with
  | nil => exact h
  | cons op rest ih => exact ih (runOp op s) (runOp_posInv op s h)

/-- C6 witness: starting from the freshly created shade (UNKNOWN position),
a sequence mixing out-of-range targets, overshooting finalizations, nudges,
stop, query and calibration keeps the invariant. -/
theorem position_invariant_witness :
    PosInv initShade ∧
    PosInv (runOps [ShadeOp.setPosOp 0 250, ShadeOp.finalizeOp 100,
      ShadeOp.up5Op 101, ShadeOp.setTTOp (some 15), ShadeOp.stopOp 102 true,
      ShadeOp.queryOp, ShadeOp.downOp 103, ShadeOp.finalizeOp 500] initShade) :=
  ⟨Or.inl rfl,
    position_invariant _ initShade (Or.inl rfl)⟩

/-- C7: `setTravelTime` succeeds exactly on numeric values in [0,60]: it then
updates `travelTime` and the reported calibration driver and nothing else;
a missing/non-numeric value or one outside [0,60] is rejected with no state
change and no serial command. -/
theorem setTravelTime_spec (s : ShadeState) :
    (setTravelTime none s = ⟨s, [], false⟩) ∧
    (∀ t : ℚ, 0 ≤ t → t ≤ 60 →
      setTravelTime (some t) s =
        ⟨{ s with travelTime := t, driverGV1 := t }, [], true⟩) ∧
    (∀ t : ℚ, t < 0 ∨ 60 < t → setTravelTime (some t) s = ⟨s, [], false⟩) := by
  refine ⟨rfl, ?_, ?_⟩
  · intro t h0 h1
    simp only [setTravelTime]
    rw [if_neg (by push_neg; exact ⟨h0, h1⟩)]
  · intro t h
    simp only [setTravelTime]
    rw [if_pos h]

/-- C7 witness (Scenario 3 of the spec): `setTravelTime 70` is rejected with
no state change; `setTravelTime 15` succeeds and updates the travel time and
the reported calibration. -/
theorem setTravelTime_spec_witness :
    setTravelTime (some 70) (shadeAt 50 8) = ⟨shadeAt 50 8, [], false⟩ ∧
    setTravelTime (some 15) (shadeAt 50 8) =
      ⟨{ shadeAt 50 8 with travelTime := 15, driverGV1 := 15 }, [], true⟩ ∧
    setTravelTime none (shadeAt 50 8) = ⟨shadeAt 50 8, [], false⟩ :=
  ⟨(setTravelTime_spec (shadeAt 50 8)).2.2 70 (by norm_num),
    (setTravelTime_spec (shadeAt 50 8)).2.1 15 (by norm_num) (by norm_num),
    (setTravelTime_spec (shadeAt 50 8)).1⟩

/-- C8: the nudges fail with no serial command when the position is UNKNOWN;
with a known position they are exactly `setShadePosition (position ± 5)`. -/
theorem nudge_spec (s : ShadeState) (now : ℚ) :
    (s.position = -1 →
      up5 now s = ⟨s, [], false⟩ ∧ down5 now s = ⟨s, [], false⟩) ∧
    (s.position ≠ -1 →
      up5 now s = setShadePosition now (s.position + 5) s ∧
      down5 now s = setShadePosition now (s.position - 5) s) := by
  constructor
  · intro h
    constructor <;> simp [up5, down5, h]
  · intro h
    constructor <;> simp [up5, down5, h]

/-- C8 witness (Scenario 4 of the spec): `up5` on an UNKNOWN shade fails and
sends nothing; on a shade at 50 both nudges delegate to `setShadePosition`. -/
theorem nudge_spec_witness :
    up5 0 initShade = ⟨initShade, [], false⟩ ∧
    down5 0 initShade = ⟨initShade, [], false⟩ ∧
    up5 0 (shadeAt 50 8) =
      setShadePosition 0 ((shadeAt 50 8).position + 5) (shadeAt 50 8) ∧
    down5 0 (shadeAt 50 8) =
      setShadePosition 0 ((shadeAt 50 8).position - 5) (shadeAt 50 8) :=
  ⟨((nudge_spec initShade 0).1 rfl).1,
    ((nudge_spec initShade 0).1 rfl).2,
    ((nudge_spec (shadeAt 50 8) 0).2 (by norm_num [shadeAt])).1,
    ((nudge_spec (shadeAt 50 8) 0).2 (by norm_num [shadeAt])).2⟩

theorem sendLoop_three (env : SerialEnv) (st : CtrlState) :
    sendLoop env 0 3 st =
      if env.connectOk 0 = true ∧ env.writeOk 0 = true then (⟨true⟩, true)
      else if env.connectOk 1 = true ∧ env.writeOk 1 = true then (⟨true⟩, true)
      else if env.connectOk 2 = true ∧ env.writeOk 2 = true then (⟨true⟩, true)
      else (⟨false⟩, false) := by
  cases h0 : env.connectOk 0 <;> cases hw0 : env.writeOk 0 <;>
    cases h1 : env.connectOk 1 <;> cases hw1 : env.writeOk 1 <;>
      cases h2 : env.connectOk 2 <;> cases hw2 : env.writeOk 2 <;>
        simp [sendLoop, connectSerialStep, disconnectSerial,
          h0, hw0, h1, hw1, h2, hw2]

/-- C9: the transport send makes at most 3 connect+write attempts — its
result depends only on the outcomes of the first three attempts; it returns
success as soon as one of those attempts completes a write; and when all
three fail it forces a disconnect, so the link is reported down, and returns
a boolean failure. -/
theorem sendURTSCmd_spec (env : SerialEnv) (st : CtrlState) (cmd : String)
    (hcmd : cmd ≠ "") :
    (∀ env2 : SerialEnv,
      (∀ i, i < 3 →
        env.connectOk i = env2.connectOk i ∧ env.writeOk i = env2.writeOk i) →
      sendURTSCmd env st cmd = sendURTSCmd env2 st cmd) ∧
    ((∃ i, i < 3 ∧ env.connectOk i = true ∧ env.writeOk i = true) →
      (sendURTSCmd env st cmd).2 = true) ∧
    ((∀ i, i < 3 → env.connectOk i = false ∨ env.writeOk i = false) →
      sendURTSCmd env st cmd = (⟨false⟩, false)) := by
  simp only [sendURTSCmd, if_neg hcmd]
  refine ⟨?_, ?_, ?_⟩
  · intro env2 hag
    have e0 := hag 0 (by norm_num)
    have e1 := hag 1 (by norm_num)
    have e2 := hag 2 (by norm_num)
    rw [sendLoop_three, sendLoop_three, e0.1, e0.2, e1.1, e1.2, e2.1, e2.2]
  · rintro ⟨i, hi, hc, hw⟩
    rw [sendLoop_three]
    interval_cases i <;> split_ifs <;> simp_all
  · intro hall
    have a0 := hall 0 (by norm_num)
    have a1 := hall 1 (by norm_num)
    have a2 := hall 2 (by norm_num)
    rw [sendLoop_three,
      if_neg (by rcases a0 with h | h <;> simp [h]),
      if_neg (by rcases a1 with h | h <;> simp [h]),
      if_neg (by rcases a2 with h | h <;> simp [h])]

/-- C9 witness (Scenario 5 of the spec): with every connect/write failing the
send reports the link down and returns failure; with a working link it
returns success. -/
theorem sendURTSCmd_spec_witness :
    sendURTSCmd ⟨fun _ => false, fun _ => false⟩ ⟨true⟩ "S" = (⟨false⟩, false) ∧
    (sendURTSCmd ⟨fun _ => true, fun _ => true⟩ ⟨false⟩ "S").2 = true :=
  ⟨(sendURTSCmd_spec ⟨fun _ => false, fun _ => false⟩ ⟨true⟩ "S"
      (by decide)).2.2 (fun i _ => Or.inl rfl),
    (sendURTSCmd_spec ⟨fun _ => true, fun _ => true⟩ ⟨false⟩ "S"
      (by decide)).2.1 ⟨0, by norm_num, rfl, rfl⟩⟩

/-- C10: `setShadePosition` is total over every integer target: any `t ≤ 0`
is executed as a Down boundary move and any `t ≥ 100` as an Up boundary move
(with the plain finalization follow-up), the DON-with-value entry point
passes the value to `setShadePosition` with no range validation, and the
call always reports success. -/
theorem setPosition_total (s : ShadeState) (now : ℚ) (t v : Int) :
    (t ≤ 0 → (setShadePosition now t s).sent = ["D"] ∧
      (setShadePosition now t s).state.timer =
        some (travelTimeReqd (updatePosition now s) t, TimerAction.updatePos)) ∧
    (100 ≤ t → (setShadePosition now t s).sent = ["U"] ∧
      (setShadePosition now t s).state.timer =
        some (travelTimeReqd (updatePosition now s) t, TimerAction.updatePos)) ∧
    upCmd now (some v) s = setShadePosition now v s ∧
    (setShadePosition now t s).ok = true := by
  refine ⟨?_, ?_, rfl, setShadePosition_ok now t s⟩
  · intro h
    rw [setShadePosition_low now t s h]
    exact ⟨by rw [commandShade_sent, take_one_D],
      by simp only [commandShade_state_timer, nextAction]⟩
  · intro h
    have h1 : ¬ t ≤ 0 := by omega
    rw [setShadePosition_high now t s h1 h]
    exact ⟨by rw [commandShade_sent, take_one_U],
      by simp only [commandShade_state_timer, nextAction]⟩

/-- C10 witness: out-of-range targets -50 and 250 are executed (Down and Up
respectively) and reported successful; DON with value 250 delegates with no
validation. -/
theorem setPosition_total_witness :
    (setShadePosition 0 (-50) (shadeAt 50 8)).sent = ["D"] ∧
    (setShadePosition 0 250 (shadeAt 50 8)).sent = ["U"] ∧
    upCmd 0 (some 250) (shadeAt 50 8) = setShadePosition 0 250 (shadeAt 50 8) ∧
    (setShadePosition 0 (-50) (shadeAt 50 8)).ok = true :=
  ⟨((setPosition_total (shadeAt 50 8) 0 (-50) 250).1 (by norm_num)).1,
    ((setPosition_total (shadeAt 50 8) 0 250 250).2.1 (by norm_num)).1,
    (setPosition_total (shadeAt 50 8) 0 250 250).2.2.1,
    (setPosition_total (shadeAt 50 8) 0 (-50) 250).2.2.2⟩

end Somfy
